import Mathlib

/-
Verification development for the picoweb request-dispatch engine
(src/picoweb/__init__.py, stripped-down micropython picoweb).

The Python module is shallowly embedded below:

  * a Python `str` is a character sequence, modelled as `List Char` (named
    `Str`); `S "..."` turns a Lean string literal into one.  The Python
    string operations used by the module (slicing, `split`, `replace`,
    `strip`, `startswith`, `endswith`, `in`) are transcribed as structurally
    recursive functions on `Str`;
  * pure helpers (`unquote_plus`, `parse_qs`, `get_mime_type`,
    `start_response`, `http_error`, `sendfile`, `handle_static`) become pure
    Lean functions; the byte stream written through `writer.awrite` is
    modelled as the list of chunks passed to successive `awrite` calls;
  * the connection reader is modelled as the list of lines successive
    `readline()` calls return; `readline()` on an exhausted reader returns
    the empty string forever, so a drain loop that never sees a blank line
    never terminates -- such divergence is modelled by `Option.none`;
  * the application object graph is modelled by numeric object ids: an
    environment `Env : Nat → AppData` maps each id to its route table
    (`url_map`), mount table (`mounts`, pairs of the mounted prefix
    `subapp.url` and the sub-application's id) and `headers_mode`.  Ids make
    cyclic object graphs (e.g. `app.mount("/", app)`) representable,
    exactly as Python references do;
  * the mount-resolution `while` loop of `WebApp._handle` gets a fuel
    parameter; `none` means the loop has not terminated within the fuel;
  * Python exceptions become `Except PyErr`; `WebApp.handle_exc` (the
    default exception hook) is a no-op generator, so a hook invocation is
    recorded but produces no output.

All definitions are transcribed from the source; comments quote the
corresponding lines.
-/

deriving instance DecidableEq for Except

namespace Picoweb

/-- A Python `str`: a sequence of characters. -/
abbrev Str := List Char

/-- The characters of a Lean string literal, as a Python `str`. -/
def S (s : String) : Str := s.data

/-- Python exception values, to the precision the dispatcher observes. -/
inductive PyErr where
  | valueError (msg : String)
  | nameError (msg : String)
  | assertionError
deriving DecidableEq, Repr

/-- Does `pre` start the string `s`?  (Python `s.startswith(pre)`, and the
worker for the other substring tests.) -/
def listIsPre : Str → Str → Bool
  | [], _ => true
  | _ :: _, [] => false
  | c :: cs, d :: ds => c == d && listIsPre cs ds

/-- Python `s.endswith(suf)`. -/
def listIsSuf (suf s : Str) : Bool :=
  listIsPre suf.reverse s.reverse

/-- Python `sub in s` (substring containment). -/
def containsSub (sub : Str) : Str → Bool
  | [] => listIsPre sub []
  | c :: t => listIsPre sub (c :: t) || containsSub sub t

/-- Python `s.split(sep)` for a one-character separator: every occurrence
splits, empty parts are kept. -/
def splitChar (sep : Char) : Str → List Str
  | [] => [[]]
  | c :: t =>
    let r := splitChar sep t
    if c == sep then [] :: r
    else
      match r with
      | h :: t2 => (c :: h) :: t2
      | [] => [[c]]

/-- Python `s.split(sep, 1)` for a one-character separator: at most one
split, at the first occurrence. -/
def pySplit1 (s : Str) (sep : Char) : List Str :=
  match splitChar sep s with
  | [] => [s]
  | [x] => [x]
  | x :: rest => [x, List.intercalate [sep] rest]

/-- Python `s.split()` (no separator): split on runs of whitespace and drop
empty tokens (ASCII whitespace suffices for the lines modelled here). -/
def pySplitWs (s : Str) : List Str :=
  (splitChar ' ' (s.map (fun c => if c.isWhitespace then ' ' else c))).filter
    (fun t => t ≠ [])

/-- Python `s.strip()` (ASCII whitespace). -/
def pyTrim (s : Str) : Str :=
  ((s.dropWhile Char.isWhitespace).reverse.dropWhile Char.isWhitespace).reverse

/-- Value of a hexadecimal digit. -/
def hexVal (c : Char) : Option Nat :=
  if '0' ≤ c ∧ c ≤ '9' then some (c.toNat - '0'.toNat)
  else if 'a' ≤ c ∧ c ≤ 'f' then some (c.toNat - 'a'.toNat + 10)
  else if 'A' ≤ c ∧ c ≤ 'F' then some (c.toNat - 'A'.toNat + 10)
  else none

/-- Hex digits with CPython's single-underscore-between-digits rule. -/
def hexGo (acc : Nat) : Str → Option Nat
  | [] => some acc
  | '_' :: c :: t =>
    match hexVal c with
    | some v => hexGo (16 * acc + v) t
    | none => none
  | '_' :: [] => none
  | c :: t =>
    match hexVal c with
    | some v => hexGo (16 * acc + v) t
    | none => none

/-- A nonempty run of hex digits (underscores only between digits). -/
def hexDigitsCore : Str → Option Nat
  | [] => none
  | c :: t =>
    match hexVal c with
    | some v => hexGo v t
    | none => none

/-- Digits after an explicit `0x` prefix; CPython also allows one underscore
directly after the prefix. -/
def hexAfterPre : Str → Option Nat
  | '_' :: t => hexDigitsCore t
  | t => hexDigitsCore t

/-- The digit part of a hex literal: optional `0x`/`0X` prefix, then
digits. -/
def hexDigits : Str → Option Nat
  | '0' :: 'x' :: t => hexAfterPre t
  | '0' :: 'X' :: t => hexAfterPre t
  | t => hexDigitsCore t

/-- Python `int(s, 16)`: surrounding whitespace is stripped, an optional
sign and `0x` prefix are accepted; `none` models the `ValueError` raised on
anything else. -/
def pyIntHex (s : Str) : Option Int :=
  match pyTrim s with
  | '+' :: t => (hexDigits t).map (fun n => (n : Int))
  | '-' :: t => (hexDigits t).map (fun n => -(n : Int))
  | t => (hexDigits t).map (fun n => (n : Int))

/-- Python `chr(n)`: defined for `0 ≤ n < 0x110000`.  The values reached
from `unquote_plus` are at most `0xff` (two hex digits), so the clash
between Python's surrogate code points and Lean's `Char` cannot arise. -/
def pyChr (n : Int) : Option Char :=
  if 0 ≤ n ∧ n < 1114112 then some (Char.ofNat n.toNat) else none

/-- One element of the comprehension in `unquote_plus`:
`chr(int(x[:2], 16)) + x[2:]` for a chunk `x` that followed a `%`. -/
def decodeEsc (x : Str) : Except PyErr Str :=
  match pyIntHex (x.take 2) with
  | none => Except.error (PyErr.valueError "invalid literal for int() with base 16")
  | some n =>
    match pyChr n with
    | none => Except.error (PyErr.valueError "chr() arg not in range(0x110000)")
    | some c => Except.ok (c :: x.drop 2)

/-- `unquote_plus` (source lines 14-18):
`s = s.replace("+", " "); arr = s.split("%");`
`arr2 = [chr(int(x[:2], 16)) + x[2:] for x in arr[1:]]; return arr[0] + "".join(arr2)`.
The comprehension evaluates left to right and the first bad escape
raises. -/
def unquote_plus (s : Str) : Except PyErr Str :=
  let s2 := s.map (fun c => if c == '+' then ' ' else c)
  match splitChar '%' s2 with
  | [] => Except.ok []
  | a0 :: rest => do
    let arr2 ← rest.mapM decodeEsc
    return a0 ++ arr2.foldr (fun a b => a ++ b) []

/-- A decoded query value: a string, or Python `True` for a key with no
`=`. -/
inductive QAtom where
  | str (v : Str)
  | pyTrue
deriving DecidableEq, Repr

/-- A value stored in the `parse_qs` result dict: a single atom, or the
list an atom is widened to when a key repeats. -/
inductive QVal where
  | atom (a : QAtom)
  | list (l : List QAtom)
deriving DecidableEq, Repr

/-- Python dict lookup (`d.get(k)`), on the insertion-ordered pair list
modelling the dict. -/
def dictGet {κ α : Type} [DecidableEq κ] (d : List (κ × α)) (k : κ) : Option α :=
  match d with
  | [] => none
  | (k0, v0) :: t => if k0 = k then some v0 else dictGet t k

/-- Python dict assignment `d[k] = v`: overwrite in place, or append a new
key at the end (insertion order). -/
def dictSet {κ α : Type} [DecidableEq κ] (d : List (κ × α)) (k : κ) (v : α) : List (κ × α) :=
  match d with
  | [] => [(k, v)]
  | (k0, v0) :: t => if k0 = k then (k, v) :: t else (k0, v0) :: dictSet t k v

/-- The accumulation step of `parse_qs` (source lines 28-35): a repeated key
widens its value from a scalar to a list, further repeats append. -/
def qsAddPair (res : List (Str × QVal)) (k : Str) (v : QAtom) : List (Str × QVal) :=
  match dictGet res k with
  | some (QVal.atom a) => dictSet res k (QVal.list [a, v])
  | some (QVal.list l) => dictSet res k (QVal.list (l ++ [v]))
  | none => dictSet res k (QVal.atom v)

/-- One pair of `parse_qs`:
`vals = [unquote_plus(x) for x in p.split("=", 1)]; if len(vals) == 1: vals.append(True)`. -/
def qsPair (p : Str) : Except PyErr (Str × QAtom) :=
  match pySplit1 p '=' with
  | [ks, vs] => do
    let k ← unquote_plus ks
    let v ← unquote_plus vs
    return (k, QAtom.str v)
  | l => do
    let k ← unquote_plus (l.headD [])
    return (k, QAtom.pyTrue)

/-- The `for p in pairs` loop of `parse_qs`. -/
def qsLoop (res : List (Str × QVal)) : List Str → Except PyErr (List (Str × QVal))
  | [] => Except.ok res
  | p :: t => do
    let kv ← qsPair p
    qsLoop (qsAddPair res kv.1 kv.2) t

/-- `parse_qs` (source lines 20-36); `if s:` makes the empty string yield
the empty dict. -/
def parse_qs (s : Str) : Except PyErr (List (Str × QVal)) :=
  if s = [] then Except.ok [] else qsLoop [] (splitChar '&' s)

/-- `get_mime_type` (source lines 40-47). -/
def get_mime_type (fname : Str) : Str :=
  if listIsSuf (S ".html") fname then S "text/html"
  else if listIsSuf (S ".css") fname then S "text/css"
  else if listIsSuf (S ".png") fname || listIsSuf (S ".jpg") fname then S "image"
  else S "text/plain"

/-- `start_response` (source lines 62-78), as the list of chunks passed to
`writer.awrite`.  `if not headers:` treats `None` and an empty mapping
alike; the str/bytes `headers` variant is unused by the claims and not
modelled. -/
def start_response (content_type status : Str) (headers : Option (List (Str × Str))) : List Str :=
  [S "HTTP/1.0 " ++ status ++ S " NA\r\n", S "Content-Type: ", content_type] ++
    match headers with
    | none => [S "\r\n\r\n"]
    | some [] => [S "\r\n\r\n"]
    | some hs => [S "\r\n"] ++ hs.flatMap (fun kv => [kv.1, S ": ", kv.2, S "\r\n"]) ++ [S "\r\n"]

/-- `http_error` (source lines 80-82). -/
def http_error (status : Str) : List Str :=
  start_response (S "text/html; charset=utf-8") status none ++ [status]

/-- The package resource store behind `pkg_resources.resource_stream`:
file name to the chunk list `sendstream` would write.  A missing name makes
`resource_stream` raise `OSError(ENOENT)`. -/
abbrev Store := List (Str × List Str)

/-- `WebApp.sendfile` (source lines 242-253).  On a missing resource,
`resource_stream` raises `OSError(ENOENT)` and the `except OSError` branch
evaluates `uerrno.ENOENT` -- but no name `uerrno` is bound in the module
(line 10 imports `errno`), so a `NameError` is raised instead of the
intended `404` response; the `http_error(writer, "404")` line is dead
code.  The pair is (chunks written, outcome). -/
def sendfile (store : Store) (fname : Str) : List Str × Except PyErr Unit :=
  let content_type := get_mime_type fname
  match dictGet store fname with
  | some chunks => (start_response content_type (S "200") none ++ chunks, Except.ok ())
  | none => ([], Except.error (PyErr.nameError "name 'uerrno' is not defined"))

/-- `WebApp.handle_static` (source lines 255-261), applied to the captured
group `req.url_match.group(1)` of the static route.  The `print(path)`
console output is not part of the response. -/
def handle_static (store : Store) (group1 : Str) : List Str × Except PyErr Unit :=
  if containsSub (S "..") group1 then (http_error (S "403"), Except.ok ())
  else sendfile store group1

/-- The captures (groups 1..n) of a successful `re` match. -/
abbrev MatchRes := List Str

/-- The request object a handler receives (`HTTPRequest`): attributes the
dispatcher may have set.  `url_match` is set only when a compiled pattern
matched; `headers` only under the `parse` policy. -/
structure HReq where
  method : Str
  path : Str
  qs : Str
  url_match : Option MatchRes
  headers : Option (List (Str × Str))

/-- What a handler did with the writer and reader: chunks written, the
outcome (`ok b` with `b` = "the returned value is the literal `False`", or
a raised error), and the unread remainder of the reader. -/
structure HandlerOut where
  out : List Str
  res : Except PyErr Bool
  rest : List Str

/-- A route handler: an external collaborator receiving the request and the
reader position after header handling. -/
abbrev Handler := HReq → List Str → HandlerOut

/-- A route matcher: an exact path string, or a compiled pattern modelled by
its match function. -/
inductive Matcher where
  | str (s : Str)
  | pat (f : Str → Option MatchRes)

/-- One `url_map` entry `(pattern, handler[, extra])`; `optHeaders` is
`extra.get("headers")` (`none` when the tuple has no dict or the dict has no
`headers` key). -/
structure RouteEntry where
  pattern : Matcher
  handler : Handler
  optHeaders : Option Str

/-- The per-application state `WebApp.__init__` sets up, for one object id:
`url_map`, `mounts` (pairs of `subapp.url` and the sub-application's id, as
appended by `WebApp.mount`) and `headers_mode`.  `inited` is omitted:
`init()` only flips that flag (source lines 263-264) and dispatching does
not observe it. -/
structure AppData where
  url_map : List RouteEntry
  mounts : List (Str × Nat)
  headers_mode : Str

/-- The application object graph: each object id resolves to its state. -/
abbrev Env := Nat → AppData

/-- Re-normalisation of the remaining path after stripping a mount prefix
(source lines 153-154): `if not path.startswith("/"): path = "/" + path`. -/
def renorm (p : Str) : Str :=
  if listIsPre (S "/") p then p else '/' :: p

/-- The prefix test of the mount loop (source line 149):
`path[:len(root)] == root`. -/
def mountHit (path : Str) (m : Str × Nat) : Bool :=
  path.take m.1.length == m.1

/-- The mount-resolution `while` loop of `WebApp._handle` (source lines
144-157): take the first mount whose `url` is a literal prefix of the path,
switch to that sub-application, strip the prefix, re-normalise, repeat until
no mount matches.  `none` means the loop has not terminated within `fuel`
iterations. -/
def resolveMounts : Nat → Env → Nat → Str → Option (Nat × Str)
  | 0, _, _, _ => none
  | fuel + 1, env, appId, path =>
    match (env appId).mounts.find? (mountHit path) with
    | none => some (appId, path)
    | some (root, sub) => resolveMounts fuel env sub (renorm (path.drop root.length))

/-- The body of the route loop (source lines 169-177) for one entry: the
exact-string comparison `path == pattern` comes first (it is always false
for a compiled pattern, which is not a `str`), then `pattern.match(path)`
for non-strings.  `some m` means the entry matched, with `m` the
`req.url_match` assignment (`none` for an exact string match, which sets no
`url_match`). -/
def entryMatch (path : Str) (e : RouteEntry) : Option (Option MatchRes) :=
  match e.pattern with
  | Matcher.str s => if path == s then some none else none
  | Matcher.pat f =>
    match f path with
    | some m => some (some m)
    | none => none

/-- The `for e in app.url_map` loop (source lines 162-177): entries are
tried in order, the first match wins. -/
def resolveRoute : List RouteEntry → Str → Option (RouteEntry × Option MatchRes)
  | [], _ => none
  | e :: t, path =>
    match entryMatch path e with
    | some m => some (e, m)
    | none => resolveRoute t path

/-- Header-policy selection (source lines 179-182): no match forces
`"skip"`; otherwise `extra.get("headers", self.headers_mode)` -- note that
`self` is the application whose `_handle` is running (the root application
of the connection), not the mount-resolved application. -/
def headersModeOf (selfData : AppData) (found : Option (RouteEntry × Option MatchRes)) : Str :=
  match found with
  | none => S "skip"
  | some (e, _) => e.optHeaders.getD selfData.headers_mode

/-- The header policy actually selected for a request path, as computed by
source lines 144-182: mount resolution, route resolution in the resolved
application, then `headersModeOf` with the root application's default. -/
def selectedHeadersMode (fuel : Nat) (env : Env) (selfId : Nat) (path : Str) : Option Str :=
  (resolveMounts fuel env selfId path).map
    (fun ar => headersModeOf (env selfId) (resolveRoute (env ar.1).url_map ar.2))

/-- Modelled from the spec for claim C1: identical to `selectedHeadersMode`
except that, as the claim words it, a route without a per-route option
defaults to the mount-resolved sub-application's own configured default
rather than the root's.  Defined for comparison with the source-accurate
`selectedHeadersMode`. -/
def selectedHeadersModeSpec (fuel : Nat) (env : Env) (selfId : Nat) (path : Str) : Option Str :=
  (resolveMounts fuel env selfId path).map
    (fun ar => headersModeOf (env ar.1) (resolveRoute (env ar.1).url_map ar.2))

/-- The `"skip"` drain loop (source lines 184-187): read and discard lines
until the blank line.  `none`: the reader ran out, `readline()` returns the
empty string forever and the loop never exits. -/
def skipHeaders : List Str → Option (List Str)
  | [] => none
  | l :: t => if l = S "\r\n" then some t else skipHeaders t

/-- `WebApp.parse_headers` (source lines 117-125): read lines until the
blank line; each line splits on the first `:`; the key keeps its exact
spelling, the value is stripped; a repeated key overwrites
(`headers[k] = v.strip()`).  A line with no `:` makes the unpacking raise
`ValueError`; the error is paired with the reader position where it
happened.  `none`: reader exhausted, the loop never exits. -/
def parseHeadersLoop (acc : List (Str × Str)) :
    List Str → Option (Except (PyErr × List Str) (List (Str × Str) × List Str))
  | [] => none
  | l :: t =>
    if l = S "\r\n" then some (Except.ok (acc, t))
    else
      match pySplit1 l ':' with
      | [k, v] => parseHeadersLoop (dictSet acc k (pyTrim v)) t
      | _ => some (Except.error
          (PyErr.valueError "not enough values to unpack (expected 2, got 1)", t))

/-- The header-handling step of `_handle` (source lines 184-192), selected
by `headers_mode`: `skip` drains, `parse` builds the mapping, `leave` reads
nothing, and any other value fails the `assert headers_mode == "leave"`. -/
def headersPhase (mode : Str) (rest : List Str) :
    Option (Except (PyErr × List Str) (Option (List (Str × Str)) × List Str)) :=
  if mode = S "skip" then
    (skipHeaders rest).map (fun r => Except.ok (none, r))
  else if mode = S "parse" then
    (parseHeadersLoop [] rest).map (fun x => x.map (fun hr => (some hr.1, hr.2)))
  else if mode = S "leave" then
    some (Except.ok (none, rest))
  else
    some (Except.error (PyErr.assertionError, rest))

/-- Request-line parsing (source line 137):
`method, path, proto = request_line.split()` -- unpacking succeeds exactly
when the whitespace-split yields three tokens, and otherwise raises
`ValueError`. -/
def parseRequestLine (line : Str) : Except PyErr (Str × Str × Str) :=
  match pySplitWs line with
  | [m, p, pr] => Except.ok (m, p, pr)
  | toks =>
    Except.error (PyErr.valueError
      (if toks.length < 3 then "not enough values to unpack (expected 3)"
       else "too many values to unpack (expected 3)"))

/-- `path = path.split("?", 1); ...; path = path[0]` (source lines 138-142). -/
def pathOf (rawPath : Str) : Str :=
  (pySplit1 rawPath '?').headD []

/-- `qs = ""; if len(path) > 1: qs = path[1]` (source lines 139-141). -/
def qsOf (rawPath : Str) : Str :=
  match pySplit1 rawPath '?' with
  | _ :: q :: _ => q
  | _ => []

/-- The observable outcome of one `_handle` run: chunks written to the
writer, whether the connection was closed, the errors passed to the
exception hook `handle_exc` (the default hook is a no-op generator, source
lines 209-211), and the unread remainder of the reader. -/
structure HandleResult where
  out : List Str
  closed : Bool
  hookCalls : List PyErr
  rest : List Str
deriving DecidableEq, Repr

/-- The invocation step of `_handle` (source lines 194-202): a matched
route's handler runs with the populated request (`close` is its return
value, and `close is not False` closes the connection; a raising handler
leaves `close = True` and routes the error to the hook); no match emits the
`404` response. -/
def handleInvoke (method path qs : Str) (hdrs : Option (List (Str × Str)))
    (found : Option (RouteEntry × Option MatchRes)) (rest2 : List Str) : HandleResult :=
  match found with
  | some em =>
    let req : HReq := ⟨method, path, qs, em.2, hdrs⟩
    let ho := em.1.handler req rest2
    match ho.res with
    | Except.ok retFalse => ⟨ho.out, !retFalse, [], ho.rest⟩
    | Except.error err => ⟨ho.out, true, [err], ho.rest⟩
  | none =>
    ⟨start_response (S "text/html; charset=utf-8") (S "404") none ++ [S "404\r\n"],
     true, [], rest2⟩

/-- Route resolution and everything after it (source lines 162-207), in the
mount-resolved application `appId`; `selfId` stays the root application,
whose `headers_mode` is the per-route default.  A failure in header
handling reaches the hook and the connection is closed (`close` is still
`True`). -/
def handleRoute (env : Env) (selfId appId : Nat) (method path qs : Str)
    (rest : List Str) : Option HandleResult :=
  let found := resolveRoute (env appId).url_map path
  match headersPhase (headersModeOf (env selfId) found) rest with
  | none => none
  | some (Except.error er) => some ⟨[], true, [er.1], er.2⟩
  | some (Except.ok hr) => some (handleInvoke method path qs hr.1 found hr.2)

/-- Query-string split and mount resolution (source lines 138-160). -/
def handleMounts (fuel : Nat) (env : Env) (selfId : Nat) (method rawPath : Str)
    (rest : List Str) : Option HandleResult :=
  match resolveMounts fuel env selfId (pathOf rawPath) with
  | none => none
  | some ar => handleRoute env selfId ar.1 method ar.2 (qsOf rawPath) rest

/-- `WebApp._handle` (source lines 127-207).  The reader is the list of
lines `readline()` will return; an empty first read (`request_line == b""`,
also the model of an exhausted reader) closes the connection silently.  A
`ValueError` from request-line unpacking reaches the hook like any other
in-dispatch error.  `none` models a run that never terminates (cyclic
mounts, or a reader exhausted inside a header loop). -/
def _handle (fuel : Nat) (env : Env) (selfId : Nat) (lines : List Str) :
    Option HandleResult :=
  let line := lines.headD []
  let rest := lines.tail
  if line = [] then some ⟨[], true, [], rest⟩
  else
    match parseRequestLine line with
    | Except.error e => some ⟨[], true, [e], rest⟩
    | Except.ok mpp => handleMounts fuel env selfId mpp.1 mpp.2.1 rest

/-- The descending-prefix-length order `WebApp.mount` keeps the mount table
in (source line 216): `sort(key=lambda app: len(app.url), reverse=True)`. -/
def mountGE (a b : Str × Nat) : Prop :=
  b.1.length ≤ a.1.length

instance : DecidableRel mountGE :=
  fun a b => Nat.decLe b.1.length a.1.length

instance : IsTotal (Str × Nat) mountGE :=
  ⟨fun a b => Nat.le_total b.1.length a.1.length⟩

instance : IsTrans (Str × Nat) mountGE :=
  ⟨fun _ _ _ h1 h2 => Nat.le_trans h2 h1⟩

/-- `WebApp.mount` (source lines 213-216): append the sub-application (with
its `url`) and re-sort the table by descending prefix length.  Python's
`list.sort` is stable; `List.insertionSort` is the same stable sort. -/
def mount (mounts : List (Str × Nat)) (m : Str × Nat) : List (Str × Nat) :=
  List.insertionSort mountGE (mounts ++ [m])

/-- A handler that writes nothing, reads nothing and returns `None`. -/
def noopHandler : Handler := fun _ rest => ⟨[], Except.ok false, rest⟩

/-- A handler that writes one chunk and then raises `ValueError("boom")`. -/
def raisingHandler : Handler := fun _ rest =>
  ⟨[S "partial"], Except.error (PyErr.valueError "boom"), rest⟩

/-- An application with no routes and no mounts (default `headers_mode`
is `"parse"`, source line 115). -/
def appEmpty : AppData := ⟨[], [], S "parse"⟩

/-- Root application of the mounted scenario: configured default `"leave"`,
one sub-application mounted at `/sub`. -/
def appC1root : AppData := ⟨[], [(S "/sub", 1)], S "leave"⟩

/-- The mounted sub-application: configured default `"skip"`, a route `/x`
with no per-route option and a route `/y` with `headers="skip"`. -/
def appC1sub : AppData :=
  ⟨[⟨Matcher.str (S "/x"), noopHandler, none⟩,
    ⟨Matcher.str (S "/y"), noopHandler, some (S "skip")⟩],
   [], S "skip"⟩

/-- Object graph of the mounted scenario: id 0 is the root, id 1 the
sub-application. -/
def envC1 : Env := fun n => if n = 0 then appC1root else if n = 1 then appC1sub else appEmpty

/-- An application mounted into itself at the one-character prefix `/`
(Python: `app.mount("/", app)`). -/
def appLoop : AppData := ⟨[], [(S "/", 0)], S "parse"⟩

/-- The object graph of the self-mount: every id is the looping app. -/
def envLoop : Env := fun _ => appLoop

/-- Mount table built by `mount("/api", 1)` then `mount("/api/v2", 2)`. -/
def env4a : Env := fun n =>
  if n = 0 then ⟨[], List.foldl mount [] [(S "/api", 1), (S "/api/v2", 2)], S "parse"⟩
  else appEmpty

/-- Mount table built in the opposite registration order. -/
def env4b : Env := fun n =>
  if n = 0 then ⟨[], List.foldl mount [] [(S "/api/v2", 2), (S "/api", 1)], S "parse"⟩
  else appEmpty

/-- A one-application graph with an empty route table. -/
def envC6 : Env := fun _ => appEmpty

/-- A one-application graph whose only route `/x` has a raising handler. -/
def envC7 : Env := fun _ => ⟨[⟨Matcher.str (S "/x"), raisingHandler, none⟩], [], S "parse"⟩

/-- A compiled pattern matching any `/foo/...` path, capturing the tail. -/
def patFoo : Str → Option MatchRes := fun p =>
  if listIsPre (S "/foo/") p then some [p.drop 5] else none

/-- A compiled pattern matching exactly `/foo/1`. -/
def patFoo1 : Str → Option MatchRes := fun p =>
  if p = S "/foo/1" then some [] else none

/-- Route entry for `patFoo`. -/
def entFoo : RouteEntry := ⟨Matcher.pat patFoo, noopHandler, none⟩

/-- Route entry for `patFoo1`. -/
def entFoo1 : RouteEntry := ⟨Matcher.pat patFoo1, noopHandler, none⟩

/-- Resource store with a single CSS file. -/
def cssStore : Store := [(S "static/style.css", [S "body: css"])]

/-- The route entry of `envC7`. -/
def entC7 : RouteEntry := ⟨Matcher.str (S "/x"), raisingHandler, none⟩

/-- After one step into a matching mount, the remaining path is strictly
shorter provided the matched prefix has at least two characters. -/
theorem renorm_drop_lt (path root : Str) (h2 : 2 ≤ root.length)
    (heq : path.take root.length = root) :
    (renorm (path.drop root.length)).length < path.length := by
  have hlen : root.length ≤ path.length := by
    have h3 := congrArg List.length heq
    rw [List.length_take] at h3
    omega
  have hd : (path.drop root.length).length = path.length - root.length := by
    rw [List.length_drop]
  unfold renorm
  split
  · omega
  · simp only [List.length_cons]
    omega

/-- A nonempty sequence of `mount` calls leaves the table sorted. -/
theorem sorted_foldl_mount :
    ∀ (ops : List (Str × Nat)) (init : List (Str × Nat)), ops ≠ [] →
      List.Sorted mountGE (List.foldl mount init ops)
  | [], _, h => absurd rfl h
  | [op], init, _ => by
    simpa [mount] using List.sorted_insertionSort mountGE (init ++ [op])
  | op1 :: op2 :: t, init, _ => by
    rw [List.foldl_cons]
    exact sorted_foldl_mount (op2 :: t) (mount init op1) (by simp)

end Picoweb

namespace Picoweb

/-- C1: the claim says a route without a `headers` option uses the
mount-resolved sub-application's configured default.  It does not: in the
configuration `envC1`, the root's default is `"leave"`, the mounted
sub-application (which the request `/sub/x` resolves to) has default
`"skip"`, the matched route carries no option -- and the selected policy is
the root's `"leave"`, differing from the claim's prediction
(`selectedHeadersModeSpec`, the claim's reading). -/
theorem C1_counterexample :
    resolveMounts 9 envC1 0 (S "/sub/x") = some (1, S "/x")
    ∧ (envC1 1).headers_mode = S "skip"
    ∧ selectedHeadersMode 9 envC1 0 (S "/sub/x") = some (S "leave")
    ∧ selectedHeadersModeSpec 9 envC1 0 (S "/sub/x") = some (S "skip")
    ∧ selectedHeadersMode 9 envC1 0 (S "/sub/x")
        ≠ selectedHeadersModeSpec 9 envC1 0 (S "/sub/x") :=
  ⟨by decide, by decide, by decide, by decide, by decide⟩

/-- C1 (amended): when a matched route's options have no `headers` key the
selected policy is the configured default of the application whose
`_handle` serves the connection (the root, `self`), even when mount
resolution dispatched the request to a sub-application; a present option
overrides that default. -/
theorem C1_theorem :
    ∀ (fuel : Nat) (env : Env) (selfId : Nat) (path : Str) (ar : Nat × Str)
      (e : RouteEntry) (m : Option MatchRes),
      resolveMounts fuel env selfId path = some ar →
      resolveRoute (env ar.1).url_map ar.2 = some (e, m) →
      (e.optHeaders = none →
        selectedHeadersMode fuel env selfId path = some (env selfId).headers_mode)
      ∧ (∀ h : Str, e.optHeaders = some h →
        selectedHeadersMode fuel env selfId path = some h) := by
  intro fuel env selfId path ar e m h1 h2
  constructor
  · intro hn
    simp [selectedHeadersMode, h1, h2, headersModeOf, hn]
  · intro h hh
    simp [selectedHeadersMode, h1, h2, headersModeOf, hh]

/-- C1 (witness): in `envC1`, the matched `/x` route of the sub-application
has no option and gets the root's default; the `/y` route's option
`"skip"` overrides. -/
theorem C1_witness :
    selectedHeadersMode 9 envC1 0 (S "/sub/x") = some (envC1 0).headers_mode
    ∧ selectedHeadersMode 9 envC1 0 (S "/sub/y") = some (S "skip") := by
  constructor
  · exact (C1_theorem 9 envC1 0 (S "/sub/x") (1, S "/x")
      ⟨Matcher.str (S "/x"), noopHandler, none⟩ none (by decide) rfl).1 rfl
  · exact (C1_theorem 9 envC1 0 (S "/sub/y") (1, S "/y")
      ⟨Matcher.str (S "/y"), noopHandler, some (S "skip")⟩ none (by decide) rfl).2
      (S "skip") rfl

/-- C2: the static handler rejects `..` paths with `403` and serves
existing `.css` resources with Content-Type `text/css`, but a missing
resource does not get the claimed `404`: the `except OSError` branch of
`sendfile` evaluates the unbound name `uerrno` and raises `NameError`
(the module imports `errno`, not `uerrno`), so the error propagates to the
exception hook instead. -/
theorem C2_theorem :
    handle_static cssStore (S "static/../secret") = (http_error (S "403"), Except.ok ())
    ∧ handle_static cssStore (S "static/missing.txt") =
        ([], Except.error (PyErr.nameError "name 'uerrno' is not defined"))
    ∧ handle_static cssStore (S "static/style.css") =
        (start_response (S "text/css") (S "200") none ++ [S "body: css"], Except.ok ()) :=
  ⟨by decide, by decide, by decide⟩

/-- C3: mount resolution does not terminate for every configuration: with
an application mounted into itself at the one-character prefix `/`
(`app.mount("/", app)`, representable because Python mount tables hold
object references), the path `/x` is never shortened (`/` is stripped and
immediately re-prepended), and the resolution loop never exits for any
amount of fuel. -/
theorem C3_counterexample :
    ¬ ∃ (n : Nat) (r : Nat × Str), resolveMounts n envLoop 0 (S "/x") = some r := by
  have hnone : ∀ n, resolveMounts n envLoop 0 (S "/x") = none := by
    intro n
    induction n with
    | zero => rfl
    | succ k ih =>
      exact (show resolveMounts (k + 1) envLoop 0 (S "/x")
          = resolveMounts k envLoop 0 (S "/x") from rfl).trans ih
  rintro ⟨n, r, h⟩
  rw [hnone n] at h
  exact Option.noConfusion h

/-- C3 (amended): mount resolution terminates whenever every mount prefix in
the object graph has at least two characters -- each mount step then
strictly shortens the remaining path (stripping the prefix and
re-normalising the remainder to begin with `/`), so fuel exceeding the path
length suffices; and each step continues in the matched sub-application's
own mount table. -/
theorem C3_theorem :
    (∀ env : Env, (∀ i m, m ∈ (env i).mounts → 2 ≤ m.1.length) →
      ∀ (fuel : Nat) (path : Str) (appId : Nat), path.length < fuel →
        (resolveMounts fuel env appId path).isSome = true)
    ∧ (∀ (path root : Str), 2 ≤ root.length → path.take root.length = root →
      (renorm (path.drop root.length)).length < path.length)
    ∧ (∀ (fuel : Nat) (env : Env) (appId : Nat) (path root : Str) (sub : Nat),
      (env appId).mounts.find? (mountHit path) = some (root, sub) →
      resolveMounts (fuel + 1) env appId path
        = resolveMounts fuel env sub (renorm (path.drop root.length))) := by
  refine ⟨?_, renorm_drop_lt, ?_⟩
  · intro env hp fuel
    induction fuel with
    | zero =>
      intro path appId h
      exact absurd h (Nat.not_lt_zero _)
    | succ n ih =>
      intro path appId h
      cases hf : (env appId).mounts.find? (mountHit path) with
      | none => simp [resolveMounts, hf]
      | some m =>
        obtain ⟨root, sub⟩ := m
        have hmem := List.mem_of_find?_eq_some hf
        have h2 : 2 ≤ root.length := hp appId (root, sub) hmem
        have hhit : mountHit path (root, sub) = true := List.find?_some hf
        have heq : path.take root.length = root := by simpa [mountHit] using hhit
        have hlt := renorm_drop_lt path root h2 heq
        simp only [resolveMounts, hf]
        exact ih (renorm (path.drop root.length)) sub (by omega)
  · intro fuel env appId path root sub h
    simp [resolveMounts, h]

/-- C3 (witness): in the mounted configuration `envC1` every prefix has at
least two characters, so resolution of `/sub/x` succeeds within fuel 7. -/
theorem C3_witness : (resolveMounts 7 envC1 0 (S "/sub/x")).isSome = true := by
  refine C3_theorem.1 envC1 ?_ 7 (S "/sub/x") 0 (by decide)
  intro i m hm
  by_cases h0 : i = 0
  · subst h0
    simp [envC1, appC1root] at hm
    subst hm
    decide
  · by_cases h1 : i = 1
    · subst h1
      simp [envC1, appC1sub] at hm
    · simp [envC1, h0, h1, appEmpty] at hm

/-- C4: `mount` keeps the mount table sorted by descending prefix length
after any sequence of registrations, and with sub-applications at `/api`
(id 1) and `/api/v2` (id 2) -- registered in either order -- `/api/v2/x`
resolves to id 2 with remaining path `/x` while `/api/x` resolves to id 1
with remaining path `/x`. -/
theorem C4_theorem :
    (∀ ops : List (Str × Nat), List.Sorted mountGE (List.foldl mount [] ops))
    ∧ resolveMounts 9 env4a 0 (S "/api/v2/x") = some (2, S "/x")
    ∧ resolveMounts 9 env4a 0 (S "/api/x") = some (1, S "/x")
    ∧ resolveMounts 9 env4b 0 (S "/api/v2/x") = some (2, S "/x")
    ∧ resolveMounts 9 env4b 0 (S "/api/x") = some (1, S "/x") := by
  refine ⟨?_, by decide, by decide, by decide, by decide⟩
  intro ops
  cases ops with
  | nil => exact List.sorted_nil
  | cons a t => exact sorted_foldl_mount (a :: t) [] (by simp)

/-- C5: route entries are tried in insertion order and the first matching
entry is selected, and for an entry whose matcher is a plain string the
match test is exact string equality (a string matcher is never pattern
matched, and for a compiled pattern the `path == pattern` fast path is
always false). -/
theorem C5_theorem :
    (∀ (pre : List RouteEntry) (e : RouteEntry) (post : List RouteEntry) (path : Str)
        (m : Option MatchRes),
        (∀ e2 ∈ pre, entryMatch path e2 = none) →
        entryMatch path e = some m →
        resolveRoute (pre ++ e :: post) path = some (e, m))
    ∧ (∀ (s : Str) (h : Handler) (o : Option Str) (path : Str),
        entryMatch path ⟨Matcher.str s, h, o⟩ = if path = s then some none else none) := by
  constructor
  · intro pre
    induction pre with
    | nil =>
      intro e post path m _ hm
      simp [resolveRoute, hm]
    | cons a t ih =>
      intro e post path m hpre hm
      have ha : entryMatch path a = none := hpre a (List.mem_cons_self a t)
      have ht : ∀ e2 ∈ t, entryMatch path e2 = none :=
        fun e2 h2 => hpre e2 (List.mem_cons_of_mem a h2)
      simp only [List.cons_append, resolveRoute, ha]
      exact ih e post path m ht hm
  · intro s h o path
    simp [entryMatch]

/-- C5 (witness): of the two pattern entries both matching `/foo/1`, the
earlier-registered `entFoo` is selected (with its capture). -/
theorem C5_witness :
    resolveRoute [entFoo, entFoo1] (S "/foo/1") = some (entFoo, some [S "1"]) :=
  C5_theorem.1 [] entFoo [entFoo1] (S "/foo/1") (some [S "1"])
    (by intro e2 h2; exact absurd h2 (List.not_mem_nil e2)) (by decide)

/-- C6: a request whose path matches no route in the resolved application
gets the `404` response, the header policy is forced to `skip` (the header
lines are drained, never parsed into a mapping), the connection is closed,
and the exception hook is not invoked. -/
theorem C6_theorem :
    (∀ (fuel : Nat) (env : Env) (selfId : Nat) (line : Str) (rest : List Str)
        (method rawPath proto : Str) (ar : Nat × Str) (rest2 : List Str),
        pySplitWs line = [method, rawPath, proto] →
        resolveMounts fuel env selfId (pathOf rawPath) = some ar →
        resolveRoute (env ar.1).url_map ar.2 = none →
        skipHeaders rest = some rest2 →
        _handle fuel env selfId (line :: rest) =
          some ⟨start_response (S "text/html; charset=utf-8") (S "404") none ++ [S "404\r\n"],
            true, [], rest2⟩)
    ∧ (∀ d : AppData, headersModeOf d none = S "skip") := by
  constructor
  · intro fuel env selfId line rest method rawPath proto ar rest2 h1 h2 h3 h4
    have hne : line ≠ [] := by
      intro h
      rw [h] at h1
      simp [pySplitWs, splitChar] at h1
    have hline : parseRequestLine line = Except.ok (method, rawPath, proto) := by
      simp [parseRequestLine, h1]
    simp [_handle, hne, hline, handleMounts, h2, handleRoute, h3, headersModeOf,
      headersPhase, h4, handleInvoke]
  · intro d
    rfl

/-- C6 (witness): with an empty route table, `GET /nope` yields the `404`
response, drains the one header line, closes, and calls no hook. -/
theorem C6_witness :
    _handle 9 envC6 0 [S "GET /nope HTTP/1.0\r\n", S "X: y\r\n", S "\r\n"] =
      some ⟨start_response (S "text/html; charset=utf-8") (S "404") none ++ [S "404\r\n"],
        true, [], []⟩ :=
  C6_theorem.1 9 envC6 0 (S "GET /nope HTTP/1.0\r\n") [S "X: y\r\n", S "\r\n"]
    (S "GET") (S "/nope") (S "HTTP/1.0") (0, S "/nope") []
    (by decide) (by decide) rfl (by decide)

/-- C7: a handler that raises routes the error to the exception hook exactly
once, and (the default hook being a no-op) the connection is closed
afterwards. -/
theorem C7_theorem :
    ∀ (fuel : Nat) (env : Env) (selfId : Nat) (line : Str) (rest : List Str)
      (method rawPath proto : Str) (ar : Nat × Str) (e : RouteEntry) (m : Option MatchRes)
      (hdrs : Option (List (Str × Str))) (rest2 out hrest : List Str) (err : PyErr),
      pySplitWs line = [method, rawPath, proto] →
      resolveMounts fuel env selfId (pathOf rawPath) = some ar →
      resolveRoute (env ar.1).url_map ar.2 = some (e, m) →
      headersPhase (headersModeOf (env selfId) (some (e, m))) rest =
        some (Except.ok (hdrs, rest2)) →
      e.handler ⟨method, ar.2, qsOf rawPath, m, hdrs⟩ rest2 =
        ⟨out, Except.error err, hrest⟩ →
      _handle fuel env selfId (line :: rest) = some ⟨out, true, [err], hrest⟩ := by
  intro fuel env selfId line rest method rawPath proto ar e m hdrs rest2 out hrest err
    h1 h2 h3 h4 h5
  have hne : line ≠ [] := by
    intro h
    rw [h] at h1
    simp [pySplitWs, splitChar] at h1
  have hline : parseRequestLine line = Except.ok (method, rawPath, proto) := by
    simp [parseRequestLine, h1]
  simp [_handle, hne, hline, handleMounts, h2, handleRoute, h3, h4, handleInvoke, h5]

/-- C7 (witness): the raising handler of `envC7` writes its partial output,
the hook receives `ValueError("boom")` exactly once, and the connection is
closed. -/
theorem C7_witness :
    _handle 9 envC7 0 [S "GET /x HTTP/1.0\r\n", S "\r\n"] =
      some ⟨[S "partial"], true, [PyErr.valueError "boom"], []⟩ :=
  C7_theorem 9 envC7 0 (S "GET /x HTTP/1.0\r\n") [S "\r\n"]
    (S "GET") (S "/x") (S "HTTP/1.0") (0, S "/x") entC7 none (some []) [] [S "partial"]
    [] (PyErr.valueError "boom") (by decide) (by decide) rfl rfl rfl

/-- C8: repeated keys accumulate into a list, a key with no `=` maps to the
boolean presence value `True`, and the empty query string decodes to the
empty mapping. -/
theorem C8_theorem :
    parse_qs (S "a=1&a=2&a=3") =
      Except.ok [(S "a", QVal.list [QAtom.str (S "1"), QAtom.str (S "2"), QAtom.str (S "3")])]
    ∧ parse_qs (S "flag") = Except.ok [(S "flag", QVal.atom QAtom.pyTrue)]
    ∧ parse_qs (S "") = Except.ok [] :=
  ⟨by decide, by decide, by decide⟩

/-- C9: the claim says an input ending in a truncated escape is silently
truncated rather than raising.  It is not: `a%` ends in an incomplete
escape and `unquote_plus` raises (`int("", 16)` fails). -/
theorem C9_counterexample :
    unquote_plus (S "a%") =
      Except.error (PyErr.valueError "invalid literal for int() with base 16") := by
  decide

/-- C9 (amended): an escape whose leading two characters do not parse as a
base-16 literal raises `ValueError` -- in particular non-hex digits and a
bare trailing `%` raise -- while a trailing escape with a single hex digit
is decoded as that one-digit code (not truncated). -/
theorem C9_theorem :
    (∀ x : Str, pyIntHex (x.take 2) = none →
      decodeEsc x = Except.error (PyErr.valueError "invalid literal for int() with base 16"))
    ∧ unquote_plus (S "%") = Except.error (PyErr.valueError "invalid literal for int() with base 16")
    ∧ unquote_plus (S "%zz") = Except.error (PyErr.valueError "invalid literal for int() with base 16")
    ∧ unquote_plus (S "a%4") = Except.ok (S "a\x04")
    ∧ unquote_plus (S "a%41b") = Except.ok (S "aAb") := by
  refine ⟨?_, by decide, by decide, by decide, by decide⟩
  intro x hx
  simp [decodeEsc, hx]

/-- C9 (witness): `zz` is not a base-16 literal and its escape raises. -/
theorem C9_witness :
    pyIntHex ((S "zz").take 2) = none
    ∧ decodeEsc (S "zz") =
        Except.error (PyErr.valueError "invalid literal for int() with base 16") :=
  ⟨by decide, C9_theorem.1 (S "zz") (by decide)⟩

/-- C10: request-line unpacking succeeds exactly when the line splits into
three whitespace-separated tokens (more than three also raises, not only
fewer), and the `ValueError` from a non-empty malformed line reaches the
exception hook. -/
theorem C10_theorem :
    (∀ line : Str, (∃ v, parseRequestLine line = Except.ok v) ↔ (pySplitWs line).length = 3)
    ∧ (∀ (fuel : Nat) (env : Env) (selfId : Nat) (line : Str) (rest : List Str) (e : PyErr),
        line ≠ [] →
        parseRequestLine line = Except.error e →
        _handle fuel env selfId (line :: rest) = some ⟨[], true, [e], rest⟩) := by
  constructor
  · intro line
    rcases hts : pySplitWs line with _ | ⟨a, _ | ⟨b, _ | ⟨c, _ | ⟨d, t⟩⟩⟩⟩ <;>
      simp [parseRequestLine, hts]
  · intro fuel env selfId line rest e hne h
    simp [_handle, hne, h]

/-- C10 (witness): a four-token request line raises "too many values to
unpack" and the error reaches the hook. -/
theorem C10_witness :
    _handle 9 envC6 0 [S "GET /a b HTTP/1.0\r\n", S "\r\n"] =
      some ⟨[], true, [PyErr.valueError "too many values to unpack (expected 3)"], [S "\r\n"]⟩ :=
  C10_theorem.2 9 envC6 0 (S "GET /a b HTTP/1.0\r\n") [S "\r\n"]
    (PyErr.valueError "too many values to unpack (expected 3)") (by decide) (by decide)

end Picoweb
